import Mathlib

/-!
Verification development for the flights-analyze repository.

The definitions below are a shallow embedding of the route-enrichment and
trip-matching code:

* `enrich_with_openflights.py` — `haversine` (abstracted), `classify_region`,
  the timezone subtraction and the per-route enrichment loop;
* `flight_explorer.py` — the planner filter pipeline (`planner_df`), the stop
  filter, `get_season`, `check_school_period` and the `value_score` formula;
* `gemini_tool_calling.py` — `search_flights` and its result formatting.

Machine-level Python values that matter to the claims (the pandas `NaN`
marker, truthiness, `int()` truncation) are modelled explicitly.
-/

/-! ### A fragment of Python float semantics

`pd.read_csv(..., na_values=['\\N'])` turns missing fields into the float
`NaN`.  `NaN` is truthy in Python (`bool(float('nan')) == True`), arithmetic
on it propagates `NaN`, and `int(float('nan'))` raises `ValueError`.  Exact
values are modelled by rationals; `NaN` is a separate constructor. -/

inductive PyFloat where
  | nan : PyFloat
  | val : ℚ → PyFloat
deriving DecidableEq

deriving instance DecidableEq for Except

/-- Python truthiness of a float: `NaN` and every non-zero value are truthy. -/
def pyTruthy : PyFloat → Bool
  | PyFloat.nan => true
  | PyFloat.val q => q != 0

/-- Python `x or 0`: returns `x` when `x` is truthy, else `0`.
Note `NaN or 0` evaluates to `NaN` because `NaN` is truthy. -/
def pyOr0 (x : PyFloat) : PyFloat :=
  if pyTruthy x then x else PyFloat.val 0

/-- Python subtraction on floats: `NaN` propagates. -/
def pySub : PyFloat → PyFloat → PyFloat
  | PyFloat.val a, PyFloat.val b => PyFloat.val (a - b)
  | _, _ => PyFloat.nan

/-- Python `int()` applied to an exact (non-`NaN`) value: truncation toward
zero. -/
def pyInt (q : ℚ) : ℤ :=
  if q < 0 then ⌈q⌉ else ⌊q⌋

/-- Python `int()` on a float: raises `ValueError` on `NaN`, truncates toward
zero otherwise. -/
def pyIntOf : PyFloat → Except String ℤ
  | PyFloat.nan => Except.error "cannot convert float NaN to integer"
  | PyFloat.val q => Except.ok (pyInt q)

/-- Source `enrich_with_openflights.py` lines 81-84:
`origin_tz = origin_info.get('timezone', 0) or 0`,
`dest_tz = dest_info.get('timezone', 0) or 0`,
`route['timezone_diff'] = int(dest_tz - origin_tz)`.
The inputs are the values stored in the airport table (possibly the pandas
`NaN` missing-data marker). -/
def timezone_diff (origin_tz dest_tz : PyFloat) : Except String ℤ :=
  pyIntOf (pySub (pyOr0 dest_tz) (pyOr0 origin_tz))

/-! ### Seasons (`flight_explorer.py`, `get_season`) -/

/-- Source `flight_explorer.py` lines 499-500: the fixed Southern-Hemisphere set. -/
def southern_countries : List String :=
  ["Australia", "New Zealand", "Argentina", "Chile", "Brazil",
   "South Africa", "Uruguay", "Paraguay", "Peru", "Bolivia"]

/-- Source `flight_explorer.py` line 502: `country in southern_countries if country
else False`; a missing country (`None`/`NaN`) is falsy. -/
def is_southern (country : Option String) : Bool :=
  match country with
  | none => false
  | some c => southern_countries.contains c

/-- Source `flight_explorer.py` lines 494-523 (`get_season`): hemisphere-aware
month-to-season mapping.  Only the month of the date is consulted. -/
def get_season (month : ℕ) (country : Option String) : String :=
  if is_southern country then
    if month = 12 ∨ month = 1 ∨ month = 2 then "Summer ☀️"
    else if month = 3 ∨ month = 4 ∨ month = 5 then "Fall 🍂"
    else if month = 6 ∨ month = 7 ∨ month = 8 then "Winter ❄️"
    else "Spring 🌸"
  else
    if month = 12 ∨ month = 1 ∨ month = 2 then "Winter ❄️"
    else if month = 3 ∨ month = 4 ∨ month = 5 then "Spring 🌸"
    else if month = 6 ∨ month = 7 ∨ month = 8 then "Summer ☀️"
    else "Fall 🍂"

/-- The opposite-season pairing used by the spec (Winter↔Summer,
Spring↔Fall). -/
def opposite_season (s : String) : String :=
  if s = "Winter ❄️" then "Summer ☀️"
  else if s = "Summer ☀️" then "Winter ❄️"
  else if s = "Spring 🌸" then "Fall 🍂"
  else if s = "Fall 🍂" then "Spring 🌸"
  else s

/-- The month of "the same date shifted by 6 months", on months `1..12`. -/
def shift_six_months (m : ℕ) : ℕ := (m + 5) % 12 + 1

/-! ### School-calendar periods (`flight_explorer.py`, `check_school_period`) -/

/-- The twelve selectable school-calendar options (`flight_explorer.py`
lines 444-448); `check_school_period` dispatches on which region/period name
occurs in the selected option string. -/
inductive SchoolPeriod where
  | usSummerBreak | usWinterBreak | usSpringBreak | usSchoolDays
  | ausSummerBreak | ausWinterBreak | ausSchoolDays
  | euSummerHoliday | euWinterHoliday | euSchoolDays
  | asiaSummerBreak | asiaSchoolDays
deriving DecidableEq

/-- Source `flight_explorer.py` lines 548-592 (`check_school_period`): fixed
month/day window predicates per named period. -/
def check_school_period (month day : ℕ) : SchoolPeriod → Bool
  | SchoolPeriod.usSummerBreak =>
      decide ((month = 6 ∧ 15 ≤ day) ∨ month = 7 ∨ (month = 8 ∧ day ≤ 20))
  | SchoolPeriod.usWinterBreak =>
      decide ((month = 12 ∧ 20 ≤ day) ∨ (month = 1 ∧ day ≤ 5))
  | SchoolPeriod.usSpringBreak =>
      decide (month = 3 ∧ 15 ≤ day ∧ day ≤ 31)
  | SchoolPeriod.usSchoolDays =>
      ! decide ((month = 6 ∧ 15 ≤ day) ∨ month = 7 ∨ (month = 8 ∧ day ≤ 20) ∨
        (month = 12 ∧ 20 ≤ day) ∨ (month = 1 ∧ day ≤ 5) ∨
        (month = 3 ∧ 15 ≤ day ∧ day ≤ 31) ∨ (month = 11 ∧ 20 ≤ day ∧ day ≤ 27))
  | SchoolPeriod.ausSummerBreak =>
      decide ((month = 12 ∧ 15 ≤ day) ∨ month = 1 ∨ (month = 2 ∧ day ≤ 10))
  | SchoolPeriod.ausWinterBreak =>
      decide ((month = 6 ∧ 20 ≤ day) ∨ (month = 7 ∧ day ≤ 10))
  | SchoolPeriod.ausSchoolDays =>
      ! decide ((month = 12 ∧ 15 ≤ day) ∨ month = 1 ∨ (month = 2 ∧ day ≤ 10) ∨
        (month = 6 ∧ 20 ≤ day) ∨ (month = 7 ∧ day ≤ 10) ∨
        (month = 4 ∧ 1 ≤ day ∧ day ≤ 14) ∨ (month = 9 ∧ 20 ≤ day ∧ day ≤ 30))
  | SchoolPeriod.euSummerHoliday =>
      decide (month = 7 ∨ month = 8)
  | SchoolPeriod.euWinterHoliday =>
      decide ((month = 12 ∧ 20 ≤ day) ∨ (month = 1 ∧ day ≤ 6))
  | SchoolPeriod.euSchoolDays =>
      ! decide (month = 7 ∨ month = 8 ∨ (month = 12 ∧ 20 ≤ day) ∨ (month = 1 ∧ day ≤ 6))
  | SchoolPeriod.asiaSummerBreak =>
      decide (month = 7 ∨ month = 8)
  | SchoolPeriod.asiaSchoolDays =>
      ! decide (month = 7 ∨ month = 8 ∨ (month = 12 ∧ 25 ≤ day) ∨ (month = 1 ∧ day ≤ 5))

/-- The US/Canada break windows named by the planner options (Summer,
Winter, Spring) together with the Thanksgiving window (Nov 20-27) that the
School-Days complement also excludes. -/
def us_break_window (month day : ℕ) : Prop :=
  (month = 6 ∧ 15 ≤ day) ∨ month = 7 ∨ (month = 8 ∧ day ≤ 20) ∨
  (month = 12 ∧ 20 ≤ day) ∨ (month = 1 ∧ day ≤ 5) ∨
  (month = 3 ∧ 15 ≤ day ∧ day ≤ 31) ∨ (month = 11 ∧ 20 ≤ day ∧ day ≤ 27)

instance (month day : ℕ) : Decidable (us_break_window month day) := by
  unfold us_break_window; infer_instance

/-! ### Stop filter (`flight_explorer.py` lines 471-481) -/

/-- The `sample_flight` dict: `x.get('stops', 99)` defaults a missing stop count
to 99. -/
structure SampleFlight where
  stops : Option ℕ
deriving DecidableEq

/-- The four options of the planner `Flight Stops` selector. -/
inductive StopOption where
  | all | directOnly | oneStopMax | twoPlusOk
deriving DecidableEq

/-- Source `flight_explorer.py` lines 471-481: for any option other than `All` the
rows with `sample_flight` NA are dropped first (`notna()`); `Direct only`
then requires `stops == 0` and `1 stop max` requires `stops <= 1`, with the
missing-key default 99. -/
def stops_filter : StopOption → Option SampleFlight → Bool
  | StopOption.all, _ => true
  | StopOption.directOnly, none => false
  | StopOption.directOnly, some sf => sf.stops.getD 99 == 0
  | StopOption.oneStopMax, none => false
  | StopOption.oneStopMax, some sf => sf.stops.getD 99 ≤ 1
  | StopOption.twoPlusOk, none => false
  | StopOption.twoPlusOk, some _ => true

/-! ### `search_flights` (`gemini_tool_calling.py` lines 93-149) -/

/-- One row of the flight DataFrame, with the columns `search_flights`
reads.  `Option` fields model columns whose cells may be NA. -/
structure SFRow where
  origin : String
  destination : String
  price_avg : ℚ
  cabin_class : String
  origin_city : Option String
  dest_city : Option String
  dest_country : Option String
  airlines : List String
  travel_date : String
deriving DecidableEq

/-- The parameters dict passed to `search_flights`; `none` means the key is
absent from `params`. -/
structure SFParams where
  origin : Option String
  budget_per_person : Option ℚ
  cabin_class : Option String
  trip_type : Option String
  adults : Option ℕ
  children : Option ℕ
deriving DecidableEq

/-- Destination info record from the `airport_to_dest` index; only the
`categories` key is consulted by the filtering code. -/
structure DestInfo where
  categories : List String
deriving DecidableEq

/-- Byte-list prefix test (helper for substring containment). -/
def isPrefL : List Char → List Char → Bool
  | [], _ => true
  | _ :: _, [] => false
  | a :: as, b :: bs => (a == b) && isPrefL as bs

/-- Byte-list substring containment (helper). -/
def containsSubL (n : List Char) : List Char → Bool
  | [] => isPrefL n []
  | b :: bs => isPrefL n (b :: bs) || containsSubL n bs

/-- Pandas `Series.str.contains(pat, case=False)`: case-insensitive substring
containment. -/
def containsCI (needle hay : String) : Bool :=
  containsSubL (needle.toList.map Char.toLower) (hay.toList.map Char.toLower)

/-- Source `gemini_tool_calling.py` lines 105-111: when `origin` is present, keep a
row if its `origin` column equals the upper-cased parameter or its
`origin_city` contains the parameter case-insensitively (NA city is a
non-match, `na=False`). -/
def origin_pass (ps : SFParams) (r : SFRow) : Bool :=
  match ps.origin with
  | none => true
  | some o =>
    (r.origin == o.toUpper) ||
      (match r.origin_city with
       | none => false
       | some c => containsCI o c)

/-- Source `gemini_tool_calling.py` lines 114-115: `price_avg <= budget_per_person`
when the key is present. -/
def budget_pass (ps : SFParams) (r : SFRow) : Bool :=
  match ps.budget_per_person with
  | none => true
  | some b => decide (r.price_avg ≤ b)

/-- Source `gemini_tool_calling.py` lines 118-119: `cabin_class` equality when the
key is present. -/
def cabin_pass (ps : SFParams) (r : SFRow) : Bool :=
  match ps.cabin_class with
  | none => true
  | some c => r.cabin_class == c

/-- Source `gemini_tool_calling.py` lines 123-126 and `flight_explorer.py` lines
464-467: the airport codes whose destination info carries the requested
category tag. -/
def trip_type_dests (atd : List (String × DestInfo)) (t : String) : List String :=
  (atd.filter (fun p => p.2.categories.contains t)).map Prod.fst

/-- Source `gemini_tool_calling.py` lines 122-128: the trip-type filter runs only
when the key is present and `airport_to_dest` is non-empty (truthy), and
`results` is restricted only when the matching-destination list is
non-empty — otherwise the filter is silently skipped. -/
def trip_pass (atd : List (String × DestInfo)) (ps : SFParams) (r : SFRow) : Bool :=
  match ps.trip_type with
  | none => true
  | some t =>
    if atd.isEmpty then true
    else
      let fd := trip_type_dests atd t
      if fd.isEmpty then true else fd.contains r.destination

/-- The candidate set after the four sequential filters of
`search_flights`. -/
def filtered_results (atd : List (String × DestInfo)) (ps : SFParams)
    (df : List SFRow) : List SFRow :=
  (((df.filter (origin_pass ps)).filter (budget_pass ps)).filter
      (cabin_pass ps)).filter (trip_pass atd ps)

/-- Stable insertion by ascending `price_avg` (helper for the stable
`sort_values('price_avg')`). -/
def insert_by_price (r : SFRow) : List SFRow → List SFRow
  | [] => [r]
  | s :: rest =>
    if r.price_avg ≤ s.price_avg then r :: s :: rest
    else s :: insert_by_price r rest

/-- Pandas `results.sort_values('price_avg')`: stable sort by ascending average
price. -/
def sort_by_price : List SFRow → List SFRow
  | [] => []
  | r :: rest => insert_by_price r (sort_by_price rest)

/-- One formatted entry of the returned `flights` list
(`gemini_tool_calling.py` lines 136-143). -/
structure FlightEntry where
  destination : String
  country : String
  price : ℤ
  cabin : String
  airline : String
  travel_date : String
deriving DecidableEq

/-- Source `gemini_tool_calling.py` lines 136-143: formatting of one result row;
`int(row['price_avg'])` truncates, `row.get('airlines', [''])[0] if
row.get('airlines') else ''` yields the first airline or `''`, and
`str(...)[:10]` keeps the first ten characters of the date. -/
def format_row (r : SFRow) : FlightEntry :=
  { destination := r.dest_city.getD r.destination
    country := r.dest_country.getD ""
    price := pyInt r.price_avg
    cabin := r.cabin_class
    airline := match r.airlines with | [] => "" | a :: _ => a
    travel_date := (r.travel_date.toList.take 10).asString }

/-- The dict returned by `search_flights`
(`gemini_tool_calling.py` lines 145-149). -/
structure SearchResult where
  found : ℕ
  flights : List FlightEntry
  total_travelers : ℕ
deriving DecidableEq

/-- Source `gemini_tool_calling.py` lines 93-149 (`search_flights`): filter, sort by
ascending price, truncate to 10, format, report `found` as the length of the
formatted list, return the first 5 entries. -/
def search_flights (atd : List (String × DestInfo)) (ps : SFParams)
    (df : List SFRow) : SearchResult :=
  let results := (sort_by_price (filtered_results atd ps df)).take 10
  let flight_list := results.map format_row
  { found := flight_list.length
    flights := flight_list.take 5
    total_travelers := ps.adults.getD 1 + ps.children.getD 0 }

/-! ### The planner filter pipeline (`flight_explorer.py` lines 456-612) -/

/-- One enriched row of the planner DataFrame, with the columns the planner
filters read.  `travel_ord` is the travel date as a day ordinal (used for
the travel-window comparisons against the injected evaluation day);
`travel_month`/`travel_day` are its calendar components. -/
structure PRow where
  origin : String
  destination : String
  cabin_class : String
  price_avg : ℚ
  sample_flight : Option SampleFlight
  travel_month : ℕ
  travel_day : ℕ
  travel_ord : ℤ
  origin_country : Option String
  dest_country : Option String
deriving DecidableEq

/-- The planner `Travel Period` selector options. -/
inductive TravelPeriod where
  | allMonths | next3 | next6 | after6
deriving DecidableEq

/-- Source `flight_explorer.py` lines 484-491: travel-window comparisons against
`today` (wall clock at evaluation, injected here as a day ordinal). -/
def period_pass (today : ℤ) (p : TravelPeriod) (ord : ℤ) : Bool :=
  match p with
  | TravelPeriod.allMonths => true
  | TravelPeriod.next3 => decide (ord ≤ today + 90)
  | TravelPeriod.next6 => decide (ord ≤ today + 180)
  | TravelPeriod.after6 => decide (today + 180 < ord)

/-- A planner trip request: the selector values feeding the planner filters
(`All`-style selections are `none`/`.all`/`.allMonths`). -/
structure PlannerRequest where
  origin : String
  cabin : String
  budget : ℚ
  trip_type : Option String
  stops : StopOption
  period : TravelPeriod
  origin_season : Option String
  dest_season : Option String
  school : Option SchoolPeriod
deriving DecidableEq

/-- The conjunction of the planner's sequential row filters
(`flight_explorer.py` lines 456-597): origin/cabin equality and budget cap
(456-460), trip-type destination membership (463-468), the stop filter
(471-481), the travel window (484-491), the origin/destination season
equalities of the enriched branch (525-544), and the school-calendar
membership (547-597).  Sequential DataFrame filters keep exactly the rows
satisfying every predicate. -/
def planner_passes (atd : List (String × DestInfo)) (today : ℤ)
    (req : PlannerRequest) (r : PRow) : Bool :=
  (r.origin == req.origin) && (r.cabin_class == req.cabin) &&
  decide (r.price_avg ≤ req.budget) &&
  (match req.trip_type with
   | none => true
   | some t => (trip_type_dests atd t).contains r.destination) &&
  stops_filter req.stops r.sample_flight &&
  period_pass today req.period r.travel_ord &&
  (match req.origin_season with
   | none => true
   | some s => get_season r.travel_month r.origin_country == s) &&
  (match req.dest_season with
   | none => true
   | some s => get_season r.travel_month r.dest_country == s) &&
  (match req.school with
   | none => true
   | some p => check_school_period r.travel_month r.travel_day p)

/-- The planner candidate set (`planner_df` after all filters). -/
def planner_match (atd : List (String × DestInfo)) (today : ℤ)
    (req : PlannerRequest) (routes : List PRow) : List PRow :=
  routes.filter (planner_passes atd today req)

/-- Value of `planner_df['price_avg'].max()` on a non-empty candidate set (0 on an
empty one, where the value-score block does not run). -/
def max_price_avg : List PRow → ℚ
  | [] => 0
  | r :: rs => (rs.map (fun x => x.price_avg)).foldl max r.price_avg

/-- Source `flight_explorer.py` line 611:
`value_score = 100 - ((price_avg / price_avg.max()) * 100)`, computed per
row over the filtered candidate set. -/
def value_score (rows : List PRow) (r : PRow) : ℚ :=
  100 - r.price_avg / max_price_avg rows * 100

/-! ### Route enrichment (`enrich_with_openflights.py` lines 35-92) -/

/-- One row of the OpenFlights airport table (the fields the enrichment
reads).  `timezone` is the raw float cell: the CSV's `\\N` becomes the
pandas `NaN` marker. -/
structure Airport where
  city : String
  country : String
  latitude : ℚ
  longitude : ℚ
  timezone : PyFloat
deriving DecidableEq

/-- Source `enrich_with_openflights.py` lines 37-47: the fixed region table, in
insertion order. -/
def regions : List (String × List String) :=
  [("Europe", ["United Kingdom", "France", "Spain", "Italy", "Greece", "Iceland",
               "Netherlands", "Germany", "Turkey"]),
   ("Asia", ["Japan", "Thailand", "Singapore", "Hong Kong", "China", "Indonesia",
             "Maldives", "India", "South Korea", "Vietnam"]),
   ("North America", ["United States", "Canada", "Mexico"]),
   ("South America", ["Brazil", "Argentina", "Chile", "Peru", "Colombia"]),
   ("Middle East", ["United Arab Emirates", "Qatar", "Saudi Arabia", "Israel"]),
   ("Oceania", ["Australia", "New Zealand", "Fiji"]),
   ("Africa", ["South Africa", "Egypt", "Morocco", "Kenya"])]

/-- Source `enrich_with_openflights.py` lines 35-52 (`classify_region`): first
region whose country list contains the country, else `"Other"`. -/
def classify_region (country : String) : String :=
  match regions.find? (fun p => p.2.contains country) with
  | some p => p.1
  | none => "Other"

/-- Python `round` to the nearest integer with ties to even (banker's
rounding), the semantics of `round(x, 2)` after scaling by 100. -/
def round_half_even (y : ℚ) : ℤ :=
  if y - ⌊y⌋ < 1/2 then ⌊y⌋
  else if (1 : ℚ)/2 < y - ⌊y⌋ then ⌊y⌋ + 1
  else if ⌊y⌋ % 2 = 0 then ⌊y⌋ else ⌊y⌋ + 1

/-- Python `round(q, 2)`. -/
def py_round2 (q : ℚ) : ℚ := (round_half_even (q * 100) : ℚ) / 100

/-- A raw scraped route record (the fields the enrichment loop reads). -/
structure RouteRec where
  origin : String
  destination : String
  price_avg : ℚ
deriving DecidableEq

/-- The geography-derived fields added to a route when both airports
resolve. -/
structure GeoFields where
  distance_miles : ℤ
  distance_km : ℤ
  price_per_mile : ℚ
  origin_city : String
  origin_country : String
  dest_city : String
  dest_country : String
  timezone_diff : ℤ
  origin_region : String
  dest_region : String
deriving DecidableEq

/-- An output record of the enrichment loop: the raw route, plus the derived
fields when both airport codes resolved. -/
structure Enriched where
  base : RouteRec
  geo : Option GeoFields
deriving DecidableEq

/-- Source `enrich_with_openflights.py` lines 57-90, one loop iteration.  The
haversine computation over transcendental functions is abstracted as the
function argument `hav` (longitude₁, latitude₁, longitude₂, latitude₂ ↦
(miles, km)); nothing below depends on its values.  When either code is
absent from the airport table the route is left with raw fields only; when
both resolve, the derived fields are attached, and `int(dest_tz -
origin_tz)` raises (propagating out of the loop) if either timezone cell is
the `NaN` missing-data marker, since `NaN or 0` is `NaN`. -/
def enrich_route (hav : ℚ → ℚ → ℚ → ℚ → ℚ × ℚ)
    (airports : List (String × Airport)) (r : RouteRec) :
    Except String Enriched :=
  match airports.lookup r.origin, airports.lookup r.destination with
  | some oi, some di =>
    let md := hav oi.longitude oi.latitude di.longitude di.latitude
    match timezone_diff oi.timezone di.timezone with
    | Except.error e => Except.error e
    | Except.ok tz =>
      Except.ok
        { base := r
          geo := some
            { distance_miles := pyInt md.1
              distance_km := pyInt md.2
              price_per_mile := if 0 < md.1 then py_round2 (r.price_avg / md.1) else 0
              origin_city := oi.city
              origin_country := oi.country
              dest_city := di.city
              dest_country := di.country
              timezone_diff := tz
              origin_region := classify_region oi.country
              dest_region := classify_region di.country } }
  | _, _ => Except.ok { base := r, geo := none }

/-- The enrichment loop over the whole route list: an uncaught exception in
one iteration aborts the whole run. -/
def enrich (hav : ℚ → ℚ → ℚ → ℚ → ℚ × ℚ)
    (airports : List (String × Airport)) (routes : List RouteRec) :
    Except String (List Enriched) :=
  routes.mapM (enrich_route hav airports)

/-! ### Concrete data used by witnesses and counterexamples -/

/-- The spec's scenario route SYD→DPS with `price_avg = 300`, economy,
travelling 2025-07-10, as a planner row. -/
def route_syd_dps : PRow :=
  { origin := "SYD", destination := "DPS", cabin_class := "economy"
    price_avg := 300, sample_flight := none
    travel_month := 7, travel_day := 10, travel_ord := 20279
    origin_country := some "Australia", dest_country := some "Indonesia" }

/-- A cheap companion row (price 200). -/
def route_syd_bkk : PRow :=
  { origin := "SYD", destination := "BKK", cabin_class := "economy"
    price_avg := 200, sample_flight := none
    travel_month := 9, travel_day := 5, travel_ord := 20336
    origin_country := some "Australia", dest_country := some "Thailand" }

/-- An expensive companion row (price 400). -/
def route_syd_cdg : PRow :=
  { origin := "SYD", destination := "CDG", cabin_class := "economy"
    price_avg := 400, sample_flight := none
    travel_month := 12, travel_day := 2, travel_ord := 20424
    origin_country := some "Australia", dest_country := some "France" }

/-- A concrete DataFrame row for `search_flights`. -/
def sf_row_syd_dps : SFRow :=
  { origin := "SYD", destination := "DPS", price_avg := 300
    cabin_class := "economy", origin_city := some "Sydney"
    dest_city := some "Denpasar", dest_country := some "Indonesia"
    airlines := ["Qantas"], travel_date := "2025-07-10" }

/-- A params dict with both schema-required keys (`origin`,
`budget_per_person`) absent. -/
def ps_missing_required : SFParams :=
  { origin := none, budget_per_person := none, cabin_class := some "economy"
    trip_type := none, adults := none, children := none }

/-- A stand-in for the haversine distance function; the claims proved below
do not depend on its values. -/
def hav_stub : ℚ → ℚ → ℚ → ℚ → ℚ × ℚ := fun _ _ _ _ => (1000, 1609)

/-- An airport table in which SYD's `timezone` cell is the pandas `NaN`
missing-data marker (a `\\N` in the OpenFlights CSV). -/
def airports_missing_tz : List (String × Airport) :=
  [("SYD", { city := "Sydney", country := "Australia",
             latitude := -339/10, longitude := 1512/10, timezone := PyFloat.nan }),
   ("DPS", { city := "Denpasar", country := "Indonesia",
             latitude := -87/10, longitude := 11515/100, timezone := PyFloat.val 8 })]

/-- The raw scraped route SYD→DPS. -/
def route_rec_syd_dps : RouteRec :=
  { origin := "SYD", destination := "DPS", price_avg := 300 }

/-! ### Claim theorems -/

/-- C3 counterexample: under `2+ stops OK` a route lacking sample-flight
detail does not pass the stop filter, because `planner_stops != 'All'`
already triggers the `notna()` restriction. -/
theorem stops_two_plus_excludes_missing_sample :
    stops_filter StopOption.twoPlusOk none = false := rfl

/-- C3 (amended): `All` imposes no constraint at all; `2+ stops OK` imposes
no stop-count constraint on routes that do have sample-flight detail; but
routes lacking sample-flight detail are excluded under every option other
than `All`, including `2+ stops OK`. -/
theorem stops_filter_behavior :
    (∀ sf, stops_filter StopOption.all sf = true) ∧
    (∀ s, stops_filter StopOption.twoPlusOk (some s) = true) ∧
    stops_filter StopOption.directOnly none = false ∧
    stops_filter StopOption.oneStopMax none = false ∧
    stops_filter StopOption.twoPlusOk none = false :=
  ⟨fun _ => rfl, fun _ => rfl, rfl, rfl, rfl⟩

/-- C4: when both timezone cells hold numbers, `timezone_diff` returns the
destination offset minus the origin offset truncated to whole hours; but
when an offset is the pandas missing-data marker `NaN`, `x or 0` keeps `NaN`
(NaN is truthy) and `int()` raises `ValueError` instead of treating the
offset as 0. -/
theorem timezone_diff_nan_raises :
    timezone_diff PyFloat.nan (PyFloat.val 8) =
      Except.error "cannot convert float NaN to integer" ∧
    timezone_diff (PyFloat.val 2) (PyFloat.val (21/2)) = Except.ok 8 := by
  constructor
  · rfl
  · have h : pySub (pyOr0 (PyFloat.val (21/2))) (pyOr0 (PyFloat.val 2)) =
        PyFloat.val (17/2) := by
      norm_num [pyOr0, pyTruthy, pySub]
    show pyIntOf (pySub (pyOr0 (PyFloat.val (21/2))) (pyOr0 (PyFloat.val 2))) =
      Except.ok 8
    rw [h]
    show Except.ok (pyInt (17/2)) = Except.ok 8
    norm_num [pyInt]

/-- C5: a route whose airport codes do not resolve degrades to a raw-only
record (1:1), but a route that resolves to an airport whose timezone cell is
`NaN` makes the loop raise `ValueError`, aborting the run — enrichment is
not exception-free. -/
theorem enrich_nan_timezone_raises :
    enrich hav_stub [] [route_rec_syd_dps] =
      Except.ok [{ base := route_rec_syd_dps, geo := none }] ∧
    enrich hav_stub airports_missing_tz [route_rec_syd_dps] =
      Except.error "cannot convert float NaN to integer" := by
  constructor
  · rfl
  · rfl

/-- Helper: for a country outside the Southern-Hemisphere set, `get_season`
takes the Northern branch. -/
theorem get_season_of_north (m : ℕ) (co : Option String)
    (h : is_southern co = false) :
    get_season m co =
      (if m = 12 ∨ m = 1 ∨ m = 2 then "Winter ❄️"
       else if m = 3 ∨ m = 4 ∨ m = 5 then "Spring 🌸"
       else if m = 6 ∨ m = 7 ∨ m = 8 then "Summer ☀️"
       else "Fall 🍂") := by
  unfold get_season
  rw [h]
  simp

/-- Helper: for a country inside the Southern-Hemisphere set, `get_season`
takes the Southern branch. -/
theorem get_season_of_south (m : ℕ) (co : Option String)
    (h : is_southern co = true) :
    get_season m co =
      (if m = 12 ∨ m = 1 ∨ m = 2 then "Summer ☀️"
       else if m = 3 ∨ m = 4 ∨ m = 5 then "Fall 🍂"
       else if m = 6 ∨ m = 7 ∨ m = 8 then "Winter ❄️"
       else "Spring 🌸") := by
  unfold get_season
  rw [h]
  simp

/-- C6: for a month `m ∈ [1,12]`, a country outside the fixed
Southern-Hemisphere set gets the opposite season six months later
(Winter↔Summer, Spring↔Fall), and a country inside the set gets, at the
same month, the opposite of the Northern-Hemisphere season for that
month. -/
theorem get_season_hemisphere (m : ℕ) (c : String) (h1 : 1 ≤ m) (h2 : m ≤ 12) :
    (southern_countries.contains c = false →
      get_season (shift_six_months m) (some c) =
        opposite_season (get_season m (some c))) ∧
    (southern_countries.contains c = true →
      get_season m (some c) = opposite_season (get_season m none)) := by
  constructor
  · intro hc
    have h' : is_southern (some c) = false := hc
    rw [get_season_of_north _ _ h', get_season_of_north _ _ h']
    interval_cases m <;> decide
  · intro hc
    have h' : is_southern (some c) = true := hc
    rw [get_season_of_south _ _ h', get_season_of_north m none rfl]
    interval_cases m <;> decide

/-- C6 witness at month 1 and country France (Northern Hemisphere):
January is Winter and July is Summer. -/
theorem get_season_hemisphere_witness :
    (southern_countries.contains "France" = false →
      get_season (shift_six_months 1) (some "France") =
        opposite_season (get_season 1 (some "France"))) ∧
    (southern_countries.contains "France" = true →
      get_season 1 (some "France") = opposite_season (get_season 1 none)) :=
  get_season_hemisphere 1 "France" (by decide) (by decide)

/-- C8: `US/Canada: Summer Break` holds exactly on June 15 – August 20
(inclusive month/day logic); `US/Canada: School Days` holds exactly on the
dates in none of the US/Canada windows (the three named breaks plus the
Nov 20-27 Thanksgiving window); 2025-07-04 is in Summer Break and
2025-09-10 is a School Day. -/
theorem school_period_us_windows :
    (∀ month day : ℕ,
      check_school_period month day SchoolPeriod.usSummerBreak = true ↔
        ((month = 6 ∧ 15 ≤ day) ∨ month = 7 ∨ (month = 8 ∧ day ≤ 20))) ∧
    (∀ month day : ℕ,
      check_school_period month day SchoolPeriod.usSchoolDays = true ↔
        ¬ us_break_window month day) ∧
    check_school_period 7 4 SchoolPeriod.usSummerBreak = true ∧
    check_school_period 9 10 SchoolPeriod.usSchoolDays = true := by
  refine ⟨fun month day => ?_, fun month day => ?_, by decide, by decide⟩
  · simp [check_school_period]
  · simp only [check_school_period, us_break_window, Bool.not_eq_true',
      decide_eq_false_iff_not]

/-- C1 counterexample: a single-route candidate set (the spec's own
SYD→DPS scenario, `price_avg = 300`).  The route is trivially the cheapest
of the set, yet `100 - (300/300)*100 = 0`, not 100. -/
theorem value_score_cheapest_not_100 :
    value_score [route_syd_dps] route_syd_dps = 0 ∧
    value_score [route_syd_dps] route_syd_dps ≠ 100 := by
  have h : value_score [route_syd_dps] route_syd_dps = 0 := by
    show (100 : ℚ) - route_syd_dps.price_avg /
      max_price_avg [route_syd_dps] * 100 = 0
    norm_num [route_syd_dps, max_price_avg]
  exact ⟨h, by rw [h]; norm_num⟩

/-- C1 (amended): over a candidate set with positive maximum price, the
cheapest route receives the maximal value score — but that score is
`100 × (1 − min/max)`, which equals 100 only when the cheapest price is 0;
the most expensive route's score is exactly 0 (hence strictly less
than 100). -/
theorem value_score_extremes (rows : List PRow) (r : PRow)
    (hr : r ∈ rows)
    (hmin : ∀ t ∈ rows, r.price_avg ≤ t.price_avg)
    (hpos : 0 < max_price_avg rows) :
    (∀ s ∈ rows, value_score rows s ≤ value_score rows r) ∧
    (∀ s ∈ rows, s.price_avg = max_price_avg rows → value_score rows s = 0) ∧
    (value_score rows r = 100 ↔ r.price_avg = 0) := by
  refine ⟨fun s hs => ?_, fun s _ hmax => ?_, ?_⟩
  · have h1 : r.price_avg ≤ s.price_avg := hmin s hs
    have h2 : r.price_avg / max_price_avg rows ≤
        s.price_avg / max_price_avg rows := by gcongr
    have h3 := mul_le_mul_of_nonneg_right h2 (by norm_num : (0:ℚ) ≤ 100)
    unfold value_score
    linarith
  · unfold value_score
    rw [hmax, div_self (ne_of_gt hpos)]
    norm_num
  · unfold value_score
    constructor
    · intro h
      have h100 : r.price_avg / max_price_avg rows * 100 = 0 := by linarith
      have hdiv : r.price_avg / max_price_avg rows = 0 := by
        rcases mul_eq_zero.mp h100 with h' | h'
        · exact h'
        · norm_num at h'
      rcases div_eq_zero_iff.mp hdiv with h' | h'
      · exact h'
      · exact absurd h' (ne_of_gt hpos)
    · intro h
      rw [h]
      norm_num

/-- C1 witness: in the two-route set {SYD→DPS at 300, SYD→BKK at 200} the
cheaper BKK route maximises the score, the route at the maximum price
scores 0, and the cheapest route scores 100 iff its price is 0. -/
theorem value_score_extremes_witness :
    (∀ s ∈ [route_syd_dps, route_syd_bkk],
        value_score [route_syd_dps, route_syd_bkk] s ≤
          value_score [route_syd_dps, route_syd_bkk] route_syd_bkk) ∧
    (∀ s ∈ [route_syd_dps, route_syd_bkk],
        s.price_avg = max_price_avg [route_syd_dps, route_syd_bkk] →
          value_score [route_syd_dps, route_syd_bkk] s = 0) ∧
    (value_score [route_syd_dps, route_syd_bkk] route_syd_bkk = 100 ↔
        route_syd_bkk.price_avg = 0) :=
  value_score_extremes [route_syd_dps, route_syd_bkk] route_syd_bkk
    (by decide) (by decide) (by decide)

/-- C2 counterexample: a params dict missing both schema-required keys
(`origin`, `budget_per_person`) does not raise — `search_flights` runs its
remaining filters over the routes and returns a normal, non-empty result
set. -/
theorem search_missing_fields_returns_results :
    (search_flights [] ps_missing_required [sf_row_syd_dps]).found = 1 ∧
    (search_flights [] ps_missing_required [sf_row_syd_dps]).flights.length = 1 := by
  constructor
  · rfl
  · rfl

/-- C2 (amended): `search_flights` performs no required-field validation.
When `origin` and `budget_per_person` are absent it silently treats them as
unconstrained (each filter applies only when its key is present) and
produces a normal result set; required-ness lives only in the tool schema
handed to the language model. -/
theorem search_flights_skips_missing_fields (atd : List (String × DestInfo))
    (ps : SFParams) (df : List SFRow)
    (ho : ps.origin = none) (hb : ps.budget_per_person = none) :
    filtered_results atd ps df =
      (df.filter (cabin_pass ps)).filter (trip_pass atd ps) := by
  unfold filtered_results
  have h1 : df.filter (origin_pass ps) = df :=
    List.filter_eq_self.mpr (fun a _ => by simp [origin_pass, ho])
  rw [h1]
  have h2 : df.filter (budget_pass ps) = df :=
    List.filter_eq_self.mpr (fun a _ => by simp [budget_pass, hb])
  rw [h2]

/-- C2 witness: with both required keys absent the candidate set is exactly
the input filtered by the remaining (cabin, trip-type) predicates. -/
theorem search_flights_skips_missing_fields_witness :
    filtered_results [] ps_missing_required [sf_row_syd_dps] =
      (([sf_row_syd_dps].filter (cabin_pass ps_missing_required)).filter
        (trip_pass [] ps_missing_required)) :=
  search_flights_skips_missing_fields [] ps_missing_required [sf_row_syd_dps]
    rfl rfl

/-- Filtering with a pointwise-stronger predicate never yields a longer
list (helper). -/
theorem length_filter_le_of_imp {α : Type} (p q : α → Bool) (l : List α)
    (h : ∀ a ∈ l, p a = true → q a = true) :
    (l.filter p).length ≤ (l.filter q).length := by
  induction l with
  | nil => simp
  | cons a t ih =>
    have ht : ∀ b ∈ t, p b = true → q b = true :=
      fun b hb => h b (List.mem_cons_of_mem a hb)
    rw [List.filter_cons, List.filter_cons]
    by_cases hp : p a = true
    · rw [if_pos hp, if_pos (h a (List.mem_cons_self a t) hp)]
      simpa using ih ht
    · rw [if_neg hp]
      by_cases hq : q a = true
      · rw [if_pos hq]
        exact le_trans (ih ht) (by simp)
      · rw [if_neg hq]
        exact ih ht

/-- C7: when one planner request is at least as restrictive as another on
every route of the collection (its conjunction of predicates implies the
other's), the more restrictive request never produces a larger candidate
set. -/
theorem planner_match_monotone (atd : List (String × DestInfo)) (today : ℤ)
    (r1 r2 : PlannerRequest) (routes : List PRow)
    (h : ∀ row ∈ routes, planner_passes atd today r1 row = true →
      planner_passes atd today r2 row = true) :
    (planner_match atd today r1 routes).length ≤
      (planner_match atd today r2 routes).length :=
  length_filter_le_of_imp _ _ routes h

/-- A loose planner request: SYD, economy, budget 400, no other
constraint. -/
def req_syd_economy_400 : PlannerRequest :=
  { origin := "SYD", cabin := "economy", budget := 400, trip_type := none
    stops := StopOption.all, period := TravelPeriod.allMonths
    origin_season := none, dest_season := none, school := none }

/-- The same request tightened by a lower budget cap. -/
def req_syd_economy_300 : PlannerRequest :=
  { req_syd_economy_400 with budget := 300 }

/-- C7 witness: lowering the budget from 400 to 300 over three concrete
routes cannot grow the candidate set. -/
theorem planner_match_monotone_witness :
    (planner_match [] 0 req_syd_economy_300
        [route_syd_dps, route_syd_bkk, route_syd_cdg]).length ≤
      (planner_match [] 0 req_syd_economy_400
        [route_syd_dps, route_syd_bkk, route_syd_cdg]).length :=
  planner_match_monotone [] 0 req_syd_economy_300 req_syd_economy_400
    [route_syd_dps, route_syd_bkk, route_syd_cdg] (by decide)

/-- An airport-to-destination index whose only destination carries the tag
`beach` but not `ski`. -/
def atd_beach : List (String × DestInfo) := [("DPS", { categories := ["beach"] })]

/-- A params dict requesting `trip_type = "ski"`. -/
def ps_ski_syd : SFParams :=
  { origin := some "SYD", budget_per_person := some 400, cabin_class := none
    trip_type := some "ski", adults := none, children := none }

/-- C9: when the requested trip type matches the categories of no
destination in the index, the `if filtered_destinations:` guard makes
`search_flights` skip the trip-type filter entirely — the result equals that
of the same request with `trip_type` unset. -/
theorem search_flights_unmatched_trip_type (atd : List (String × DestInfo))
    (ps : SFParams) (df : List SFRow) (t : String)
    (hps : ps.trip_type = some t)
    (h : ∀ q ∈ atd, q.2.categories.contains t = false) :
    search_flights atd ps df =
      search_flights atd { ps with trip_type := none } df := by
  have hfd : trip_type_dests atd t = [] := by
    unfold trip_type_dests
    have hf : atd.filter (fun q => q.2.categories.contains t) = [] :=
      List.filter_eq_nil_iff.mpr (fun q hq => by simpa using h q hq)
    rw [hf]
    rfl
  have htp : ∀ r, trip_pass atd ps r = true := by
    intro r
    simp [trip_pass, hps, hfd]
  have hft : filtered_results atd ps df =
      filtered_results atd { ps with trip_type := none } df := by
    unfold filtered_results
    rw [List.filter_eq_self.mpr (fun a _ => htp a)]
    rw [List.filter_eq_self.mpr
      (fun a _ => (rfl : trip_pass atd { ps with trip_type := none } a = true))]
    exact rfl
  simp only [search_flights, hft]

/-- C9 witness: asking for `ski` trips over an index that only knows a
`beach` destination leaves the result identical to not filtering by trip
type at all. -/
theorem search_flights_unmatched_trip_type_witness :
    search_flights atd_beach ps_ski_syd [sf_row_syd_dps] =
      search_flights atd_beach { ps_ski_syd with trip_type := none }
        [sf_row_syd_dps] :=
  search_flights_unmatched_trip_type atd_beach ps_ski_syd [sf_row_syd_dps]
    "ski" rfl (by decide)

/-- Inserting grows the length by one (helper). -/
theorem length_insert_by_price (r : SFRow) (l : List SFRow) :
    (insert_by_price r l).length = l.length + 1 := by
  induction l with
  | nil => rfl
  | cons s rest ih =>
    unfold insert_by_price
    by_cases hle : r.price_avg ≤ s.price_avg
    · rw [if_pos hle]
      simp
    · rw [if_neg hle]
      simp [ih]

/-- Sorting preserves the length (helper). -/
theorem length_sort_by_price (l : List SFRow) :
    (sort_by_price l).length = l.length := by
  induction l with
  | nil => rfl
  | cons r rest ih =>
    unfold sort_by_price
    rw [length_insert_by_price, ih]
    rfl

/-- Members of an insertion are the inserted row or old members (helper). -/
theorem mem_insert_by_price {x r : SFRow} {l : List SFRow}
    (hx : x ∈ insert_by_price r l) : x = r ∨ x ∈ l := by
  induction l with
  | nil =>
    unfold insert_by_price at hx
    simp at hx
    exact Or.inl hx
  | cons s rest ih =>
    unfold insert_by_price at hx
    by_cases hle : r.price_avg ≤ s.price_avg
    · rw [if_pos hle] at hx
      rcases List.mem_cons.mp hx with h | h
      · exact Or.inl h
      · exact Or.inr h
    · rw [if_neg hle] at hx
      rcases List.mem_cons.mp hx with h | h
      · exact Or.inr (List.mem_cons.mpr (Or.inl h))
      · rcases ih h with h' | h'
        · exact Or.inl h'
        · exact Or.inr (List.mem_cons.mpr (Or.inr h'))

/-- Insertion preserves sortedness by ascending price (helper). -/
theorem pairwise_insert_by_price {r : SFRow} {l : List SFRow}
    (hl : l.Pairwise (fun a b => a.price_avg ≤ b.price_avg)) :
    (insert_by_price r l).Pairwise (fun a b => a.price_avg ≤ b.price_avg) := by
  induction l with
  | nil => simp [insert_by_price]
  | cons s rest ih =>
    rcases List.pairwise_cons.mp hl with ⟨hs, hrest⟩
    unfold insert_by_price
    by_cases hle : r.price_avg ≤ s.price_avg
    · rw [if_pos hle]
      refine List.pairwise_cons.mpr ⟨?_, hl⟩
      intro b hb
      rcases List.mem_cons.mp hb with h | h
      · rw [h]
        exact hle
      · exact le_trans hle (hs b h)
    · rw [if_neg hle]
      refine List.pairwise_cons.mpr ⟨?_, ih hrest⟩
      intro b hb
      rcases mem_insert_by_price hb with h | h
      · rw [h]
        exact le_of_not_le hle
      · exact hs b h

/-- The sort produces a list sorted by ascending price (helper). -/
theorem pairwise_sort_by_price (l : List SFRow) :
    (sort_by_price l).Pairwise (fun a b => a.price_avg ≤ b.price_avg) := by
  induction l with
  | nil => simp [sort_by_price]
  | cons r rest ih =>
    unfold sort_by_price
    exact pairwise_insert_by_price ih

/-- Python `int()` truncation toward zero is monotone (helper). -/
theorem pyInt_mono {a b : ℚ} (h : a ≤ b) : pyInt a ≤ pyInt b := by
  unfold pyInt
  by_cases ha : a < 0 <;> by_cases hb : b < 0
  · rw [if_pos ha, if_pos hb]
    exact Int.ceil_mono h
  · rw [if_pos ha, if_neg hb]
    have h1 : ⌈a⌉ ≤ 0 := Int.ceil_le.mpr (by exact_mod_cast ha.le)
    have h2 : (0 : ℤ) ≤ ⌊b⌋ := Int.floor_nonneg.mpr (not_lt.mp hb)
    exact le_trans h1 h2
  · exact absurd (lt_of_le_of_lt h hb) ha
  · rw [if_neg ha, if_neg hb]
    exact Int.floor_mono h

/-- A params dict with every key absent (no filter constrains). -/
def ps_all_unset : SFParams :=
  { origin := none, budget_per_person := none, cabin_class := none
    trip_type := none, adults := none, children := none }

/-- Demo row constructor for the seven-route DataFrame. -/
def mk_sf_row (dest : String) (p : ℚ) : SFRow :=
  { origin := "SYD", destination := dest, price_avg := p
    cabin_class := "economy", origin_city := some "Sydney"
    dest_city := none, dest_country := none, airlines := []
    travel_date := "2025-07-10" }

/-- Seven routes, so that the filtered set (7) exceeds the 5 returned
flights. -/
def df_seven : List SFRow :=
  [mk_sf_row "AAA" 100, mk_sf_row "BBB" 250, mk_sf_row "CCC" 180,
   mk_sf_row "DDD" 320, mk_sf_row "EEE" 210, mk_sf_row "FFF" 400,
   mk_sf_row "GGG" 150]

/-- C10: for every input, `search_flights` returns at most 5 flights,
sorted by ascending price (hence by ascending `price_avg`, since `int()`
truncation is monotone); `found` counts the filtered candidates truncated
to the 10 cheapest, and the returned flights are the first 5 of those — so
`found` can exceed the number of flights returned, as the seven-route
example shows (5 flights, `found = 7`). -/
theorem search_flights_result_shape :
    (∀ (atd : List (String × DestInfo)) (ps : SFParams) (df : List SFRow),
      (search_flights atd ps df).flights.length ≤ 5 ∧
      (search_flights atd ps df).flights.Pairwise
        (fun a b => a.price ≤ b.price) ∧
      (search_flights atd ps df).found =
        min 10 (filtered_results atd ps df).length ∧
      (search_flights atd ps df).flights.length =
        min 5 (search_flights atd ps df).found) ∧
    (search_flights [] ps_all_unset df_seven).flights.length <
      (search_flights [] ps_all_unset df_seven).found := by
  constructor
  · intro atd ps df
    refine ⟨?_, ?_, ?_, ?_⟩
    · show ((((sort_by_price (filtered_results atd ps df)).take 10).map
          format_row).take 5).length ≤ 5
      exact List.length_take_le 5 _
    · show ((((sort_by_price (filtered_results atd ps df)).take 10).map
          format_row).take 5).Pairwise (fun a b => a.price ≤ b.price)
      have h1 := pairwise_sort_by_price (filtered_results atd ps df)
      have h2 := h1.sublist (List.take_sublist 10 _)
      have h3 : (((sort_by_price (filtered_results atd ps df)).take 10).map
          format_row).Pairwise (fun a b => a.price ≤ b.price) :=
        List.pairwise_map.mpr (h2.imp (fun hab => pyInt_mono hab))
      exact h3.sublist (List.take_sublist 5 _)
    · show ((((sort_by_price (filtered_results atd ps df)).take 10).map
          format_row)).length = min 10 (filtered_results atd ps df).length
      rw [List.length_map, List.length_take, length_sort_by_price]
    · show ((((sort_by_price (filtered_results atd ps df)).take 10).map
          format_row).take 5).length =
        min 5 (((sort_by_price (filtered_results atd ps df)).take 10).map
          format_row).length
      rw [List.length_take]
  · decide

